import Mathlib

/-!
Shallow embedding of `src/do/droplets.go` from the
digitalocean-cloud-controller-manager repository: the `instances`
implementation of the cloud provider `Instances` contract.  The external
Cloud API Client (godo) and the local metadata endpoint are modelled as
explicit parameters; every operation also returns the list of Cloud API
calls it performed, so that absence of a network call is provable.
-/

/-- Kind of a node address, mirroring `v1.NodeAddress.Type`
(`v1.NodeHostName`, `v1.NodeInternalIP`, `v1.NodeExternalIP`). -/
inductive NodeAddressType where
  | hostName
  | internalIP
  | externalIP
deriving DecidableEq, Repr

/-- One node address, mirroring `v1.NodeAddress` (a kind plus a string). -/
structure NodeAddress where
  type : NodeAddressType
  address : String
deriving DecidableEq, Repr

/-- Modelled from the spec: one network interface of an Instance Record,
tagged public or private and carrying an IPv4 address (the godo
`godo.NetworkV4` value, an external collaborator not in this repository). -/
structure NetworkV4 where
  ipAddress : String
  networkType : String
deriving DecidableEq, Repr

/-- The godo `Droplet` record as used by this file: numeric ID, display
name, size slug, and the list of v4 network interfaces. -/
structure Droplet where
  id : Int
  name : String
  sizeSlug : String
  networksV4 : List NetworkV4
deriving DecidableEq, Repr

/-- Modelled from the spec: the external godo accessor `Droplet.PrivateIPv4`
(not in this repository): the IPv4 address of the first network tagged
private, or the empty string when there is none. -/
def Droplet.privateIPv4 (d : Droplet) : String :=
  match d.networksV4.find? (fun n => n.networkType == "private") with
  | some n => n.ipAddress
  | none => ""

/-- Modelled from the spec: the external godo accessor `Droplet.PublicIPv4`
(not in this repository): the IPv4 address of the first network tagged
public, or the empty string when there is none. -/
def Droplet.publicIPv4 (d : Droplet) : String :=
  match d.networksV4.find? (fun n => n.networkType == "public") with
  | some n => n.ipAddress
  | none => ""

/-- Result of one Cloud API call as seen by this file: either a non-nil
`err` (in which case the response is not inspected), or a value together
with the HTTP status code of the response. -/
inductive ApiResult (α : Type) where
  | err (msg : String)
  | ok (value : α) (statusCode : Nat)
deriving DecidableEq, Repr

/-- Behaviour of the external Cloud API Client (`godo.Client.Droplets`):
the `Get` and `List` operations used by this file. -/
structure Client where
  dropletsGet : Int → ApiResult Droplet
  dropletsList : ApiResult (List Droplet)

/-- One observable network call against the Cloud API Client. -/
inductive ApiCall where
  | get (id : Int)
  | list
deriving DecidableEq, Repr

/-- The distinct error outcomes produced by `droplets.go`. -/
inductive DropletError where
  /-- a non-nil `err` from the Cloud API Client, propagated as is -/
  | apiError (msg : String)
  /-- DO API returned non-200 status code -/
  | non200 (code : Nat)
  /-- error converting droplet id to string (strconv.Atoi failed) -/
  | invalidId (id : String)
  /-- the sentinel `cloudprovider.InstanceNotFound` -/
  | instanceNotFound
  /-- could not get private ip / could not get public ip -/
  | missingAddress (field : String)
  /-- not implemented yet -/
  | notImplemented
  /-- transport error from the metadata endpoint fetch -/
  | metadataError (msg : String)
  /-- droplet metadata returned non-200 status code -/
  | metadataNon200 (code : Nat)
deriving DecidableEq, Repr

/-- Go `strconv.Atoi`: an optional sign, one or more decimal digits, and
the value must fit in a 64-bit signed integer; `none` on any other input. -/
def atoi (s : String) : Option Int :=
  let (sign, digits) :=
    match s.data with
    | '+' :: rest => ((1 : Int), rest)
    | '-' :: rest => ((-1 : Int), rest)
    | cs => ((1 : Int), cs)
  if digits.isEmpty then none
  else if digits.all Char.isDigit then
    let n : Nat := digits.foldl (fun acc c => acc * 10 + (c.toNat - Char.toNat '0')) 0
    let v : Int := sign * n
    if -(2 ^ 63) ≤ v ∧ v ≤ 2 ^ 63 - 1 then some v else none
  else none

/-- Go `strconv.Itoa`: decimal string of an integer. -/
def itoa (n : Int) : String := toString n

/-- The `dropletById` helper: parse the id with `strconv.Atoi` (failing
before any network call), then `Droplets.Get`; a non-nil `err` or a
non-200 status is a failure.  The second component is the trace of Cloud
API calls performed. -/
def dropletById (c : Client) (id : String) :
    Except DropletError Droplet × List ApiCall :=
  match atoi id with
  | none => (Except.error (DropletError.invalidId id), [])
  | some intId =>
    match c.dropletsGet intId with
    | ApiResult.err msg => (Except.error (DropletError.apiError msg), [ApiCall.get intId])
    | ApiResult.ok droplet code =>
      if code ≠ 200 then (Except.error (DropletError.non200 code), [ApiCall.get intId])
      else (Except.ok droplet, [ApiCall.get intId])

/-- The `dropletByName` helper: `Droplets.List` everything, fail on a
non-nil `err` or a non-200 status, then return the first droplet in list
order whose name equals the node name, or `InstanceNotFound`. -/
def dropletByName (c : Client) (nodeName : String) :
    Except DropletError Droplet × List ApiCall :=
  match c.dropletsList with
  | ApiResult.err msg => (Except.error (DropletError.apiError msg), [ApiCall.list])
  | ApiResult.ok droplets code =>
    if code ≠ 200 then (Except.error (DropletError.non200 code), [ApiCall.list])
    else
      match droplets.find? (fun d => d.name == nodeName) with
      | some droplet => (Except.ok droplet, [ApiCall.list])
      | none => (Except.error DropletError.instanceNotFound, [ApiCall.list])

/-- `NodeAddressesByProviderID`: resolve the droplet by id, then build the
address list hostname, internal IP, external IP, failing when the private
or public IPv4 is empty (or the accessor errs). -/
def NodeAddressesByProviderID (c : Client) (providerId : String) :
    Except DropletError (List NodeAddress) × List ApiCall :=
  let r := dropletById c providerId
  match r.1 with
  | Except.error e => (Except.error e, r.2)
  | Except.ok droplet =>
    let addresses := [NodeAddress.mk NodeAddressType.hostName droplet.name]
    let privateIP := droplet.privateIPv4
    if privateIP = "" then (Except.error (DropletError.missingAddress "private"), r.2)
    else
      let addresses := addresses ++ [NodeAddress.mk NodeAddressType.internalIP privateIP]
      let publicIP := droplet.publicIPv4
      if publicIP = "" then (Except.error (DropletError.missingAddress "public"), r.2)
      else (Except.ok (addresses ++ [NodeAddress.mk NodeAddressType.externalIP publicIP]), r.2)

/-- Transport-level outcome of the single HTTP GET against the metadata
endpoint: either a transport error or a status code with a body. -/
inductive HttpResponse where
  | transportError (msg : String)
  | response (statusCode : Nat) (body : String)
deriving DecidableEq, Repr

/-- The `httpGet` helper: fail on a transport error or a non-200 status,
otherwise return the response body as text. -/
def httpGet (resp : HttpResponse) : Except DropletError String :=
  match resp with
  | HttpResponse.transportError msg => Except.error (DropletError.metadataError msg)
  | HttpResponse.response code body =>
    if code ≠ 200 then Except.error (DropletError.metadataNon200 code)
    else Except.ok body

/-- The `dropletID` helper: fetch the current droplet id from the fixed
metadata URL via `httpGet`. -/
def dropletID (metadataResp : HttpResponse) : Except DropletError String :=
  httpGet metadataResp

/-- `NodeAddresses`: fetch the id of the calling instance from the local
metadata endpoint, then delegate to `NodeAddressesByProviderID`; the
node-name argument is received but never used. -/
def NodeAddresses (c : Client) (metadataResp : HttpResponse) (name : String) :
    Except DropletError (List NodeAddress) × List ApiCall :=
  match dropletID metadataResp with
  | Except.error e => (Except.error e, [])
  | Except.ok selfDropletID => NodeAddressesByProviderID c selfDropletID

/-- `InstanceID`: resolve by name and return the droplet id as a decimal
string. -/
def InstanceID (c : Client) (nodeName : String) :
    Except DropletError String × List ApiCall :=
  let r := dropletByName c nodeName
  match r.1 with
  | Except.error e => (Except.error e, r.2)
  | Except.ok droplet => (Except.ok (itoa droplet.id), r.2)

/-- `ExternalID`: delegates to `InstanceID` unchanged. -/
def ExternalID (c : Client) (nodeName : String) :
    Except DropletError String × List ApiCall :=
  InstanceID c nodeName

/-- `InstanceType`: resolve by name and return the size slug. -/
def InstanceType (c : Client) (nodeName : String) :
    Except DropletError String × List ApiCall :=
  let r := dropletByName c nodeName
  match r.1 with
  | Except.error e => (Except.error e, r.2)
  | Except.ok droplet => (Except.ok droplet.sizeSlug, r.2)

/-- `InstanceTypeByProviderID`: resolve by provider id and return the size
slug. -/
def InstanceTypeByProviderID (c : Client) (providerId : String) :
    Except DropletError String × List ApiCall :=
  let r := dropletById c providerId
  match r.1 with
  | Except.error e => (Except.error e, r.2)
  | Except.ok droplet => (Except.ok droplet.sizeSlug, r.2)

/-- `AddSSHKeyToAllInstances`: unconditionally the error
"not implemented yet". -/
def AddSSHKeyToAllInstances (user : String) (keyData : List Nat) :
    Except DropletError Unit :=
  Except.error DropletError.notImplemented

/-- `CurrentNodeName`: return the given hostname as the node name, with no
error. -/
def CurrentNodeName (hostname : String) : Except DropletError String :=
  Except.ok hostname

/-! Concrete fixtures shared by witnesses and counterexamples. -/

/-- A droplet with both a private and a public IPv4. -/
def nodeA : Droplet :=
  ⟨42, "node-a", "s-1vcpu-1gb",
   [⟨"10.0.0.5", "private"⟩, ⟨"203.0.113.9", "public"⟩]⟩

/-- A droplet with no network interfaces at all. -/
def bareDroplet : Droplet := ⟨7, "node-a", "s-2vcpu-2gb", []⟩

/-- A droplet with a private IPv4 but no public one. -/
def privOnlyDroplet : Droplet :=
  ⟨9, "node-b", "s-1vcpu-2gb", [⟨"10.0.0.7", "private"⟩]⟩

/-- A client that serves `nodeA` for every get and lists exactly it. -/
def goodClient : Client :=
  ⟨fun _ => ApiResult.ok nodeA 200, ApiResult.ok [nodeA] 200⟩

/-- A client that serves `bareDroplet` for every get and lists exactly it. -/
def bareClient : Client :=
  ⟨fun _ => ApiResult.ok bareDroplet 200, ApiResult.ok [bareDroplet] 200⟩

/-- A client that serves `privOnlyDroplet` for every get. -/
def privOnlyClient : Client :=
  ⟨fun _ => ApiResult.ok privOnlyDroplet 200, ApiResult.ok [privOnlyDroplet] 200⟩

/-- Two droplets sharing the name dup, with distinct ids. -/
def dupList : List Droplet := [⟨1, "dup", "a", []⟩, ⟨2, "dup", "b", []⟩]

/-- A client listing `dupList`; its get operation always errs. -/
def dupClient : Client := ⟨fun _ => ApiResult.err "unused", ApiResult.ok dupList 200⟩

/-- A client whose list succeeds with no droplets at all. -/
def emptyClient : Client := ⟨fun _ => ApiResult.err "unused", ApiResult.ok [] 200⟩

/-- C5: ExternalID and InstanceID agree on every client behaviour and
every node name, value and trace alike: one identity-mapped algorithm. -/
theorem c5_external_id_equals_instance_id :
    ∀ (c : Client) (nodeName : String), ExternalID c nodeName = InstanceID c nodeName :=
  fun _ _ => rfl

/-- C7: CurrentNodeName returns the given hostname unchanged with no
error, for every input string including the empty one. -/
theorem c7_current_node_name_identity :
    ∀ hostname : String, CurrentNodeName hostname = Except.ok hostname :=
  fun _ => rfl

/-- C8: AddSSHKeyToAllInstances fails with the not-implemented error for
every user string and every key-data byte sequence. -/
theorem c8_add_ssh_key_not_implemented :
    ∀ (user : String) (keyData : List Nat),
      AddSSHKeyToAllInstances user keyData = Except.error DropletError.notImplemented :=
  fun _ _ => rfl

/-- C9: NodeAddresses ignores its node-name argument: with the same
metadata response and the same client behaviour, any two names give
identical results (including identical call traces). -/
theorem c9_node_addresses_ignores_name :
    ∀ (c : Client) (metadataResp : HttpResponse) (n1 n2 : String),
      NodeAddresses c metadataResp n1 = NodeAddresses c metadataResp n2 :=
  fun _ _ _ _ => rfl

/-- C3: when the provider id does not parse as an integer, `dropletById`
and hence `NodeAddressesByProviderID` fail with the invalid-id error and
perform no Cloud API call at all (empty call trace), for every client
behaviour. -/
theorem c3_invalid_id_no_network (c : Client) (id : String) (h : atoi id = none) :
    dropletById c id = (Except.error (DropletError.invalidId id), []) ∧
    NodeAddressesByProviderID c id = (Except.error (DropletError.invalidId id), []) := by
  have h1 : dropletById c id = (Except.error (DropletError.invalidId id), []) := by
    unfold dropletById
    rw [h]
  refine ⟨h1, ?_⟩
  simp only [NodeAddressesByProviderID]
  rw [h1]

/-- Witness for C3 at the concrete non-numeric id "abc". -/
theorem c3_invalid_id_no_network_witness :
    dropletById goodClient "abc" = (Except.error (DropletError.invalidId "abc"), []) ∧
    NodeAddressesByProviderID goodClient "abc" =
      (Except.error (DropletError.invalidId "abc"), []) :=
  c3_invalid_id_no_network goodClient "abc" (by decide)

/-- C2: when the droplet lookup by provider id succeeds and both IPv4
fields are non-empty, NodeAddressesByProviderID returns exactly the
three-element list hostname, internal ip, external ip, in that order. -/
theorem c2_addresses_exact (c : Client) (providerId : String) (d : Droplet)
    (h : (dropletById c providerId).1 = Except.ok d)
    (hp : d.privateIPv4 ≠ "") (hq : d.publicIPv4 ≠ "") :
    (NodeAddressesByProviderID c providerId).1 =
      Except.ok [⟨NodeAddressType.hostName, d.name⟩,
                 ⟨NodeAddressType.internalIP, d.privateIPv4⟩,
                 ⟨NodeAddressType.externalIP, d.publicIPv4⟩] := by
  simp only [NodeAddressesByProviderID]
  rw [h]
  simp [hp, hq]

/-- Witness for C2 at the concrete record of the spec example. -/
theorem c2_addresses_exact_witness :
    (NodeAddressesByProviderID goodClient "42").1 =
      Except.ok [⟨NodeAddressType.hostName, nodeA.name⟩,
                 ⟨NodeAddressType.internalIP, nodeA.privateIPv4⟩,
                 ⟨NodeAddressType.externalIP, nodeA.publicIPv4⟩] :=
  c2_addresses_exact goodClient "42" nodeA rfl (by decide) (by decide)

/-- C6: when the droplet lookup by provider id succeeds but the public
IPv4 is empty, NodeAddressesByProviderID fails with a missing-address
error whether or not the private IPv4 is present, and in particular never
returns a shorter address list. -/
theorem c6_missing_public_ip (c : Client) (providerId : String) (d : Droplet)
    (h : (dropletById c providerId).1 = Except.ok d)
    (hq : d.publicIPv4 = "") :
    (NodeAddressesByProviderID c providerId).1 =
      Except.error (DropletError.missingAddress
        (if d.privateIPv4 = "" then "private" else "public")) := by
  simp only [NodeAddressesByProviderID]
  rw [h]
  by_cases hp : d.privateIPv4 = ""
  · simp [hp]
  · simp [hp, hq]

/-- Witness for C6 at a concrete record with a private but no public IP. -/
theorem c6_missing_public_ip_witness :
    (NodeAddressesByProviderID privOnlyClient "9").1 =
      Except.error (DropletError.missingAddress
        (if privOnlyDroplet.privateIPv4 = "" then "private" else "public")) :=
  c6_missing_public_ip privOnlyClient "9" privOnlyDroplet rfl rfl

/-- C1 counterexample: both lookup paths succeed on a record whose
private and public IPv4 are empty — the lookups themselves never check
the addresses, so the claimed invariant fails as stated. -/
theorem c1_counterexample :
    (dropletByName bareClient "node-a").1 = Except.ok bareDroplet ∧
    (dropletById bareClient "7").1 = Except.ok bareDroplet ∧
    (InstanceID bareClient "node-a").1 = Except.ok "7" ∧
    bareDroplet.privateIPv4 = "" ∧ bareDroplet.publicIPv4 = "" :=
  ⟨rfl, rfl, rfl, rfl, rfl⟩

/-- C1 amended: the non-empty-IPv4 invariant is enforced only by the
address-building operation: whenever NodeAddressesByProviderID succeeds,
the underlying record has non-empty private and public IPv4 fields. -/
theorem c1_amended_invariant (c : Client) (providerId : String) (addrs : List NodeAddress)
    (h : (NodeAddressesByProviderID c providerId).1 = Except.ok addrs) :
    ∃ d, (dropletById c providerId).1 = Except.ok d ∧
      d.privateIPv4 ≠ "" ∧ d.publicIPv4 ≠ "" := by
  simp only [NodeAddressesByProviderID] at h
  rcases hres : (dropletById c providerId).1 with e | d
  · rw [hres] at h
    simp at h
  · rw [hres] at h
    by_cases hp : d.privateIPv4 = ""
    · simp [hp] at h
    · by_cases hq : d.publicIPv4 = ""
      · simp [hp, hq] at h
      · exact ⟨d, rfl, hp, hq⟩

/-- Witness for the amended C1 at a concrete successful resolution. -/
theorem c1_amended_invariant_witness :
    ∃ d, (dropletById goodClient "42").1 = Except.ok d ∧
      d.privateIPv4 ≠ "" ∧ d.publicIPv4 ≠ "" :=
  c1_amended_invariant goodClient "42"
    [⟨NodeAddressType.hostName, "node-a"⟩,
     ⟨NodeAddressType.internalIP, "10.0.0.5"⟩,
     ⟨NodeAddressType.externalIP, "203.0.113.9"⟩] rfl

/-- C10: when the list operation succeeds with an empty record list,
InstanceID, ExternalID and InstanceType all fail with InstanceNotFound. -/
theorem c10_empty_list_not_found (c : Client) (nodeName : String)
    (hl : c.dropletsList = ApiResult.ok [] 200) :
    (InstanceID c nodeName).1 = Except.error DropletError.instanceNotFound ∧
    (ExternalID c nodeName).1 = Except.error DropletError.instanceNotFound ∧
    (InstanceType c nodeName).1 = Except.error DropletError.instanceNotFound := by
  have hbn : dropletByName c nodeName =
      (Except.error DropletError.instanceNotFound, [ApiCall.list]) := by
    unfold dropletByName
    rw [hl]
    simp [List.find?]
  refine ⟨?_, ?_, ?_⟩ <;> simp [InstanceID, ExternalID, InstanceType, hbn]

/-- Witness for C10 at a concrete client listing no droplets. -/
theorem c10_empty_list_not_found_witness :
    (InstanceID emptyClient "node-a").1 = Except.error DropletError.instanceNotFound ∧
    (ExternalID emptyClient "node-a").1 = Except.error DropletError.instanceNotFound ∧
    (InstanceType emptyClient "node-a").1 = Except.error DropletError.instanceNotFound :=
  c10_empty_list_not_found emptyClient "node-a" rfl

/-- Helper: if position `i` is the first index of the list at which the
predicate holds, then `find?` returns the element at `i`. -/
theorem find_first_eq {α : Type} (p : α → Bool) :
    ∀ (l : List α) (i : Nat) (h : i < l.length),
      (∀ (j : Nat) (hj : j < i), p (l.get ⟨j, Nat.lt_trans hj h⟩) = false) →
      p (l.get ⟨i, h⟩) = true →
      l.find? p = some (l.get ⟨i, h⟩)
  | [], i, h, _, _ => absurd h (Nat.not_lt_zero i)
  | a :: l, 0, _, _, hi => by
      simp only [List.get] at hi
      simp [List.find?, hi]
  | a :: l, i + 1, h, hbefore, hi => by
      have ha : p a = false := hbefore 0 (Nat.succ_pos i)
      have ih := find_first_eq p l i (Nat.lt_of_succ_lt_succ h)
        (fun j hj => hbefore (j + 1) (Nat.succ_lt_succ hj)) hi
      simp [List.find?, ha, ih]

/-- C4: with a successful list response, InstanceID returns the decimal
id of the first record (in list order) whose name equals the queried name
under exact string equality, and fails with InstanceNotFound when no
record name equals it. -/
theorem c4_instance_id_first_match (c : Client) (ds : List Droplet) (nodeName : String)
    (hl : c.dropletsList = ApiResult.ok ds 200) :
    (∀ (i : Nat) (h : i < ds.length),
        (∀ (j : Nat) (hj : j < i), (ds.get ⟨j, Nat.lt_trans hj h⟩).name ≠ nodeName) →
        (ds.get ⟨i, h⟩).name = nodeName →
        (InstanceID c nodeName).1 = Except.ok (itoa (ds.get ⟨i, h⟩).id)) ∧
    ((∀ d ∈ ds, d.name ≠ nodeName) →
        (InstanceID c nodeName).1 = Except.error DropletError.instanceNotFound) := by
  constructor
  · intro i h hbefore hi
    have hfind : ds.find? (fun d => d.name == nodeName) = some (ds.get ⟨i, h⟩) :=
      find_first_eq _ ds i h
        (fun j hj => by simpa using hbefore j hj)
        (by simpa using hi)
    simp [InstanceID, dropletByName, hl, hfind]
  · intro hnone
    have hfind : ds.find? (fun d => d.name == nodeName) = none :=
      List.find?_eq_none.mpr (fun d hd => by simpa using hnone d hd)
    simp [InstanceID, dropletByName, hl, hfind]

/-- Witness for C4: duplicate names pick the first record in list order,
and a name matching no record yields InstanceNotFound. -/
theorem c4_instance_id_first_match_witness :
    (InstanceID dupClient "dup").1 = Except.ok "1" ∧
    (InstanceID dupClient "other").1 = Except.error DropletError.instanceNotFound := by
  constructor
  · exact (c4_instance_id_first_match dupClient dupList "dup" rfl).1 0 (Nat.succ_pos 1)
      (fun j hj => absurd hj (Nat.not_lt_zero j)) rfl
  · exact (c4_instance_id_first_match dupClient dupList "other" rfl).2 (by decide)
